import Mathlib

/-!
Verification development for the HubSpot CRM adapter
(`src/client.ts` of the primrose-mcp-hubspot repository).

The TypeScript adapter is shallowly embedded: JSON values, JavaScript
truthiness, `parseInt`/`parseFloat`, `String(...)` stringification and plain
JavaScript objects (modelled as association lists with assignment semantics)
are given executable Lean counterparts, and each adapter operation that the
claims touch is translated into a pure function over those models.  Network
effects are modelled by passing the HTTP response explicitly; the shared
request primitive returns the number of transport invocations together with
its classified outcome.
-/

set_option autoImplicit false

namespace HubSpot

/-! ## JSON values and JavaScript primitives -/

/-- Result of a successful JSON.parse: a JSON value tree.  Numbers are
modelled as integers (no claim depends on fractional JSON numbers). -/
inductive Json where
  | null
  | bool (b : Bool)
  | num (n : Int)
  | str (s : String)
  | arr (elems : List Json)
  | obj (fields : List (String × Json))
deriving Repr, BEq

/-- JavaScript truthiness of a JSON value: null, false, 0 and the empty
string are falsy; arrays and objects are always truthy. -/
def Json.truthy : Json → Bool
  | .null => false
  | .bool b => b
  | .num n => n != 0
  | .str s => !s.isEmpty
  | .arr _ => true
  | .obj _ => true

/-- Property lookup on a parsed JSON object (first matching key). -/
def lookupField (fields : List (String × Json)) (k : String) : Option Json :=
  (fields.find? (fun p => p.1 == k)).map (fun p => p.2)

/-- The JavaScript expression a || b for a possibly-undefined a (none
models undefined): yields a when a is defined and truthy, else b. -/
def jsOr (a : Option Json) (b : Json) : Json :=
  match a with
  | some v => if v.truthy then v else b
  | none => b

/-- Truthiness of a possibly-undefined / possibly-empty string, as used in
checks such as if (params.cursor): none (undefined/null) and the empty
string are falsy. -/
def truthyStr : Option String → Bool
  | some s => !s.isEmpty
  | none => false

/-- The JavaScript expression v || d on a possibly-undefined number
(none models undefined): 0 is falsy, so it is replaced by the default. -/
def jsOrNum (v : Option Int) (d : Int) : Int :=
  match v with
  | some n => if n == 0 then d else n
  | none => d

/-- Decimal digits of a natural number, most significant first, as produced
by JavaScript String(n) for a nonnegative integer. -/
def natDecimal (n : Nat) : List Char :=
  if _h : n < 10 then [Nat.digitChar n]
  else natDecimal (n / 10) ++ [Nat.digitChar (n % 10)]
decreasing_by
  exact Nat.div_lt_self (by omega) (by omega)

/-- JavaScript String(n) for an integer-valued number: decimal notation
with a leading minus sign for negative values. -/
def jsNumToString (n : Int) : String :=
  if n < 0 then "-" ++ String.mk (natDecimal (-n).toNat)
  else String.mk (natDecimal n.toNat)

/-- Numeric value of a decimal digit character. -/
def digitVal (c : Char) : Nat := c.toNat - 48

/-- Value of a most-significant-first digit run, as accumulated by a
decimal integer scanner. -/
def decimalValue (cs : List Char) : Nat :=
  cs.foldl (fun a c => 10 * a + digitVal c) 0

/-- ASCII whitespace skipped by JavaScript parseInt before the number. -/
def isJsSpace (c : Char) : Bool :=
  c == ' ' || c == '\t' || c == '\n' || c == '\r'

/-- Shared digit-run scanner of the parseInt model: reads the leading
decimal digits and applies the sign; none models NaN (no digits). -/
def jsParseIntCore (sign : Int) (cs : List Char) : Option Int :=
  let ds := cs.takeWhile Char.isDigit
  if ds.isEmpty then none else some (sign * (decimalValue ds : Int))

/-- JavaScript parseInt(s, 10): skip leading whitespace, read an optional
sign and then the longest leading run of decimal digits, ignoring any
trailing characters; none models NaN (no digits found). -/
def jsParseInt (s : String) : Option Int :=
  match s.toList.dropWhile isJsSpace with
  | [] => none
  | c :: rest =>
    if c == '-' then jsParseIntCore (-1) rest
    else if c == '+' then jsParseIntCore 1 rest
    else jsParseIntCore 1 (c :: rest)

/-- JavaScript Math.round: floor of the argument plus one half. -/
def mathRound (q : ℚ) : Int := ⌊q + 1 / 2⌋

/-- JavaScript parseFloat restricted to plain decimal notation (optional
sign, digits, optional fraction); exponent notation is not modelled, and
none models NaN.  Only the pipeline-stage probability mapping uses this. -/
def jsParseFloat (s : String) : Option ℚ :=
  let core (sign : ℚ) (cs : List Char) : Option ℚ :=
    let intPart := cs.takeWhile Char.isDigit
    let rest := cs.drop intPart.length
    let fracPart := match rest with
      | '.' :: tail => tail.takeWhile Char.isDigit
      | _ => []
    if intPart.isEmpty && fracPart.isEmpty then none
    else
      some (sign * ((decimalValue intPart : ℚ) +
        (decimalValue fracPart : ℚ) / ((10 : ℚ) ^ fracPart.length)))
  match s.toList.dropWhile isJsSpace with
  | '-' :: rest => core (-1) rest
  | '+' :: rest => core 1 rest
  | rest => core 1 rest

/-- Values storable in a customFields record (the unknown type on the
TypeScript side); undef models an explicitly-undefined entry. -/
inductive JsVal where
  | undef
  | null
  | str (s : String)
  | num (n : Int)
  | bool (b : Bool)
deriving Repr, BEq, DecidableEq

/-- JavaScript String(value) stringification of a customFields value. -/
def JsVal.toJsString : JsVal → String
  | .undef => "undefined"
  | .null => "null"
  | .str s => s
  | .num n => jsNumToString n
  | .bool b => if b then "true" else "false"

/-- A customFields entry is copied into the outgoing properties exactly
when its value is neither undefined nor null. -/
def JsVal.isValidCustom : JsVal → Bool
  | .undef => false
  | .null => false
  | _ => true

/-! ## Plain JavaScript objects as string-valued property maps -/

/-- An outgoing properties object: Record of string to string, kept in
insertion order. -/
abbrev JsObj := List (String × String)

/-- Property assignment o[k] = v on a plain object: overwrite in place when
the key exists, otherwise append. -/
def objSet (o : JsObj) (k v : String) : JsObj :=
  if o.any (fun p => p.1 == k) then
    o.map (fun p => if p.1 == k then (k, v) else p)
  else o ++ [(k, v)]

/-- Property read o[k] on a plain object; none models undefined. -/
def objGet (o : JsObj) (k : String) : Option String :=
  (o.find? (fun p => p.1 == k)).map (fun p => p.2)

/-- Conditional assignment if (v !== undefined) o[k] = v, the pattern of
every update-input field mapping. -/
def setIfDefined (o : JsObj) (k : String) (v : Option String) : JsObj :=
  match v with
  | some s => objSet o k s
  | none => o

/-- Conditional assignment if (v) o[k] = v, the pattern of every
create-input field mapping: undefined and the empty string are skipped. -/
def setIfTruthy (o : JsObj) (k : String) (v : Option String) : JsObj :=
  match v with
  | some s => if s.isEmpty then o else objSet o k s
  | none => o

/-- Merge loop over Object.entries(input.customFields): every entry whose
value is neither undefined nor null is assigned with its key unchanged and
its value stringified by String(value). -/
def applyCustomFields (o : JsObj) (cfs : List (String × JsVal)) : JsObj :=
  cfs.foldl (fun acc p => if p.2.isValidCustom then objSet acc p.1 p.2.toJsString else acc) o

/-- Last customFields entry for a key whose value survives the
undefined/null filter; this is the value a later lookup on the merged
object observes (later assignments overwrite earlier ones). -/
def lastValidCustom : List (String × JsVal) → String → Option JsVal
  | [], _ => none
  | p :: rest, k =>
    match lastValidCustom rest k with
    | some v => some v
    | none => if p.1 == k && p.2.isValidCustom then some p.2 else none

/-! ## Error taxonomy and the shared request primitive -/

/-- Modelled from the spec: the RateLimitError class is declared in
src/utils/errors.ts, a file absent from the provided source tree.  Per the
spec the error "carries a retry-after duration in seconds (parsed from a
response header, defaulting to 60 if absent or malformed)", so its
constructor is modelled as replacing a missing or non-numeric (NaN)
retry-after argument — none here — by 60. -/
def rateLimitRetryAfterSeconds (v : Option Int) : Int :=
  match v with
  | some n => n
  | none => 60

/-- The three failure kinds thrown by the adapter, plus the untyped JSON
SyntaxError escaping from response.json() on a 2xx response whose body is
not valid JSON. -/
inductive CrmError where
  | authentication (message : String)
  | rateLimit (message : String) (retryAfterSeconds : Int)
  | apiError (message : Json) (status : Nat)
  | jsonSyntaxFailure
deriving Repr, BEq

/-- Per-request tenant credentials; none models an absent field. -/
structure TenantCredentials where
  apiKey : Option String := none
  accessToken : Option String := none
  baseUrl : Option String := none
deriving Repr

/-- Auth-header construction: prefer a (truthy) access token, else a
(truthy) API key, each used as a bearer token; with neither, throw
AuthenticationError before any network call. -/
def getAuthHeaders (c : TenantCredentials) : Except CrmError (List (String × String)) :=
  if truthyStr c.accessToken then
    .ok [("Authorization", "Bearer " ++ c.accessToken.getD ""),
         ("Content-Type", "application/json")]
  else if truthyStr c.apiKey then
    .ok [("Authorization", "Bearer " ++ c.apiKey.getD ""),
         ("Content-Type", "application/json")]
  else
    .error (.authentication
      "No credentials provided. Include X-CRM-API-Key or X-CRM-Access-Token header.")

/-- An HTTP response as observed by the request primitive.  errorBody is
the JSON.parse of the text body read on the error path (none when the body
is not valid JSON); jsonBody is the response.json() result decoded at the
operation result type on the success path (none when parsing throws). -/
structure HttpResponse (T : Type) where
  status : Nat
  retryAfterHeader : Option String := none
  errorBody : Option Json := none
  jsonBody : Option T := none

/-- The response.ok predicate of fetch: status in the range 200 to 299. -/
def statusOk (status : Nat) : Bool := 200 ≤ status && status ≤ 299

/-- Argument passed to the RateLimitError constructor: the truthy header
is fed to parseInt (none models NaN), a null or empty header selects the
literal 60. -/
def retryAfterArg (h : Option String) : Option Int :=
  match h with
  | some s => if s.isEmpty then some 60 else jsParseInt s
  | none => some 60

/-- Best-effort error message for a non-2xx response: the message field of
the parsed JSON body when truthy, else the error field when truthy, else
the fallback string.  Property access on a parsed null throws and is
caught, and a non-object body has no such fields, so both keep the
fallback. -/
def extractErrorMessage (status : Nat) (body : Option Json) : Json :=
  let fallback : Json := .str ("API error: " ++ toString status)
  match body with
  | some (.obj fields) =>
    jsOr (lookupField fields "message") (jsOr (lookupField fields "error") fallback)
  | _ => fallback

/-- Response classification of the shared request primitive: 429 throws
RateLimitError, 401/403 throw AuthenticationError, any other non-2xx
throws CrmApiError with the extracted message, 204 succeeds with an empty
(undefined) result, and any other 2xx returns the parsed JSON body. -/
def classifyResponse {T : Type} (r : HttpResponse T) : Except CrmError (Option T) :=
  if r.status == 429 then
    .error (.rateLimit "Rate limit exceeded"
      (rateLimitRetryAfterSeconds (retryAfterArg r.retryAfterHeader)))
  else if r.status == 401 || r.status == 403 then
    .error (.authentication "Authentication failed. Check your API credentials.")
  else if !statusOk r.status then
    .error (.apiError (extractErrorMessage r.status r.errorBody) r.status)
  else if r.status == 204 then
    .ok none
  else
    match r.jsonBody with
    | some t => .ok (some t)
    | none => .error .jsonSyntaxFailure

/-- The shared request primitive: build auth headers (throwing before the
transport is touched when credentials are missing), then issue the call
and classify the response.  The first component counts transport
invocations. -/
def runRequest {T : Type} (creds : TenantCredentials)
    (respond : Unit → HttpResponse T) : Nat × Except CrmError (Option T) :=
  match getAuthHeaders creds with
  | .error e => (0, .error e)
  | .ok _ => (1, classifyResponse (respond ()))

/-! ## HubSpot wire shapes and the contact entity -/

/-- A HubSpot CRM object as returned by the v3 API; property values may be
null (none on the inner option). -/
structure HubSpotObject where
  id : String
  properties : List (String × Option String)
  createdAt : String
  updatedAt : String
  archived : Bool := false

/-- Truthy read props[k] as used by the response mappers: an absent, null
or empty-string property is collapsed to undefined. -/
def propOr (props : List (String × Option String)) (k : String) : Option String :=
  match (props.find? (fun p => p.1 == k)).map (fun p => p.2) with
  | some (some s) => if s.isEmpty then none else some s
  | _ => none

/-- Next-page pointer of a list/search response. -/
structure PagingNext where
  after : String
deriving Repr

/-- Optional paging envelope of a list/search response. -/
structure Paging where
  next : Option PagingNext := none
deriving Repr

/-- Raw shape of a HubSpot list response. -/
structure HubSpotListResponse where
  results : List HubSpotObject
  paging : Option Paging := none

/-- The expression response.paging?.next?.after. -/
def pagingAfter (r : HubSpotListResponse) : Option String :=
  (r.paging.bind (fun p => p.next)).map (fun n => n.after)

/-- Vendor-neutral pagination envelope returned by every list call. -/
structure PaginatedResponse (T : Type) where
  items : List T
  count : Nat
  total : Option Nat := none
  hasMore : Bool
  nextCursor : Option String := none

/-- Vendor-neutral contact entity. -/
structure Contact where
  id : String
  firstName : Option String := none
  lastName : Option String := none
  fullName : Option String := none
  email : Option String := none
  phone : Option String := none
  title : Option String := none
  companyName : Option String := none
  lifecycleStage : Option String := none
  status : Option String := none
  createdAt : String
  updatedAt : String

/-- Fixed property list requested for contacts. -/
def CONTACT_PROPERTIES : String :=
  "firstname,lastname,email,phone,jobtitle,company,lifecyclestage,hs_lead_status,createdate,lastmodifieddate"

/-- Response mapper mapHubSpotContact: truthy property reads, a full name
assembled from the name parts when either is truthy, and timestamps
falling back to the object-level fields. -/
def mapHubSpotContact (obj : HubSpotObject) : Contact :=
  let props := obj.properties
  { id := obj.id
    firstName := propOr props "firstname"
    lastName := propOr props "lastname"
    fullName :=
      if (propOr props "firstname").isSome || (propOr props "lastname").isSome then
        some (((propOr props "firstname").getD "" ++ " " ++
               (propOr props "lastname").getD "").trim)
      else none
    email := propOr props "email"
    phone := propOr props "phone"
    title := propOr props "jobtitle"
    companyName := propOr props "company"
    lifecycleStage := propOr props "lifecyclestage"
    status := propOr props "hs_lead_status"
    createdAt := (propOr props "createdate").getD obj.createdAt
    updatedAt := (propOr props "lastmodifieddate").getD obj.updatedAt }

/-! ## Contact create / update / list -/

/-- Create input for a contact; email is required by the interface, every
other standard field optional.  customFields is the open string-keyed
record (empty list models an absent record). -/
structure ContactCreateInput where
  firstName : Option String := none
  lastName : Option String := none
  email : String
  phone : Option String := none
  title : Option String := none
  companyId : Option String := none
  source : Option String := none
  customFields : List (String × JsVal) := []

/-- Update input for a contact: every field optional (none models a field
omitted from the patch). -/
structure ContactUpdateInput where
  firstName : Option String := none
  lastName : Option String := none
  email : Option String := none
  phone : Option String := none
  title : Option String := none
  companyId : Option String := none
  customFields : List (String × JsVal) := []

/-- Standard-field portion of the createContact properties body: each
present-and-truthy input field is assigned under its HubSpot name. -/
def createContactMapped (i : ContactCreateInput) : JsObj :=
  setIfTruthy (setIfTruthy (setIfTruthy (setIfTruthy (setIfTruthy []
    "firstname" i.firstName) "lastname" i.lastName) "email" (some i.email))
    "phone" i.phone) "jobtitle" i.title

/-- Properties object of the outgoing POST body of createContact. -/
def createContactProperties (i : ContactCreateInput) : JsObj :=
  applyCustomFields (createContactMapped i) i.customFields

/-- Standard-field portion of the updateContact properties body: each
input field that is not undefined — including one holding the empty
string — is assigned under its HubSpot name. -/
def updateContactMapped (i : ContactUpdateInput) : JsObj :=
  setIfDefined (setIfDefined (setIfDefined (setIfDefined (setIfDefined []
    "firstname" i.firstName) "lastname" i.lastName) "email" i.email)
    "phone" i.phone) "jobtitle" i.title

/-- Properties object of the outgoing PATCH body of updateContact. -/
def updateContactProperties (i : ContactUpdateInput) : JsObj :=
  applyCustomFields (updateContactMapped i) i.customFields

/-- Reference lookup for the standard update mapping: the value the PATCH
body carries at a HubSpot property name, before customFields merging. -/
def contactUpdateField (i : ContactUpdateInput) (k : String) : Option String :=
  if k = "firstname" then i.firstName
  else if k = "lastname" then i.lastName
  else if k = "email" then i.email
  else if k = "phone" then i.phone
  else if k = "jobtitle" then i.title
  else none

/-- Reference lookup for the standard create mapping: truthy input fields
only. -/
def contactCreateField (i : ContactCreateInput) (k : String) : Option String :=
  if k = "firstname" then (if truthyStr i.firstName then i.firstName else none)
  else if k = "lastname" then (if truthyStr i.lastName then i.lastName else none)
  else if k = "email" then (if i.email.isEmpty then none else some i.email)
  else if k = "phone" then (if truthyStr i.phone then i.phone else none)
  else if k = "jobtitle" then (if truthyStr i.title then i.title else none)
  else none

/-- Pagination parameters accepted by every list call. -/
structure PaginationParams where
  limit : Option Int := none
  cursor : Option String := none
  offset : Option Int := none
deriving Repr

/-- Query-string pairs built by listContacts: limit (default 20 via the
truthiness-based or), the fixed properties list, and the cursor as after
when truthy. -/
def listContactsQuery (params : Option PaginationParams) : List (String × String) :=
  let base := [("limit", jsNumToString (jsOrNum (params.bind (fun p => p.limit)) 20)),
               ("properties", CONTACT_PROPERTIES)]
  match params.bind (fun p => p.cursor) with
  | some c => if c.isEmpty then base else base ++ [("after", c)]
  | none => base

/-- Result mapping of listContacts: items mapped through
mapHubSpotContact, count from the page length, hasMore from truthiness of
the next-page pointer, nextCursor the pointer verbatim. -/
def listContactsResult (resp : HubSpotListResponse) : PaginatedResponse Contact :=
  { items := resp.results.map mapHubSpotContact
    count := resp.results.length
    total := none
    hasMore := truthyStr (pagingAfter resp)
    nextCursor := pagingAfter resp }

/-- Full listContacts pipeline through the shared request primitive. -/
def listContactsRun (creds : TenantCredentials)
    (respond : Unit → HttpResponse HubSpotListResponse) :
    Nat × Except CrmError (Option (PaginatedResponse Contact)) :=
  let (n, r) := runRequest creds respond
  (n, r.map (fun ob => ob.map listContactsResult))

/-! ## Search -/

/-- Generic search filter: field, operator tag and a pass-through value. -/
structure SearchFilter where
  field : String
  operator : String
  value : JsVal
deriving Repr, BEq

/-- Search parameters accepted by the search calls. -/
structure SearchParams where
  limit : Option Int := none
  cursor : Option String := none
  query : Option String := none
  filters : Option (List SearchFilter) := none
  sortBy : Option String := none
  sortOrder : Option String := none

/-- One entry of a HubSpot filter group. -/
structure HubSpotFilter where
  propertyName : String
  operator : String
  value : JsVal
deriving Repr, BEq

/-- One entry of the sorts array. -/
structure SortSpec where
  propertyName : String
  direction : String
deriving Repr, BEq

/-- Operator lookup table of mapFilterOperator. -/
def filterOperatorMapping : JsObj :=
  [("eq", "EQ"), ("neq", "NEQ"), ("lt", "LT"), ("lte", "LTE"),
   ("gt", "GT"), ("gte", "GTE"), ("contains", "CONTAINS_TOKEN"),
   ("not_contains", "NOT_CONTAINS_TOKEN"), ("in", "IN"), ("not_in", "NOT_IN"),
   ("is_null", "NOT_HAS_PROPERTY"), ("is_not_null", "HAS_PROPERTY")]

/-- Generic-to-backend operator mapping: table lookup falling back to EQ
for any operator not in the table. -/
def mapFilterOperator (op : String) : String :=
  (objGet filterOperatorMapping op).getD "EQ"

/-- Serialization of one generic filter into a filter-group entry. -/
def mapHubSpotFilter (f : SearchFilter) : HubSpotFilter :=
  { propertyName := f.field, operator := mapFilterOperator f.operator, value := f.value }

/-- POST body of searchContacts. -/
structure SearchRequestBody where
  limit : Int
  properties : List String
  query : Option String := none
  after : Option String := none
  filterGroups : Option (List (List HubSpotFilter)) := none
  sorts : Option (List SortSpec) := none

/-- Body builder of searchContacts: default limit 20, fixed properties
split on commas, truthy query and cursor pass-through, all filters in a
single filter group when the filter list is present and non-empty, and a
single sort entry when sortBy is truthy. -/
def searchContactsBody (params : SearchParams) : SearchRequestBody :=
  { limit := jsOrNum params.limit 20
    properties := CONTACT_PROPERTIES.splitOn ","
    query := match params.query with
      | some q => if q.isEmpty then none else some q
      | none => none
    after := match params.cursor with
      | some c => if c.isEmpty then none else some c
      | none => none
    filterGroups := match params.filters with
      | some fs => if fs.length > 0 then some [fs.map mapHubSpotFilter] else none
      | none => none
    sorts := match params.sortBy with
      | some sb =>
        if sb.isEmpty then none
        else some [{ propertyName := sb,
                     direction := if params.sortOrder == some "desc"
                                  then "DESCENDING" else "ASCENDING" }]
      | none => none }

/-! ## Batch operations -/

/-- A per-item error entry of a batch response. -/
structure BatchErrorEntry where
  status : String
  message : String
deriving Repr, BEq

/-- Raw shape of a HubSpot batch response. -/
structure BatchResponse where
  status : String
  results : List HubSpotObject
  errors : Option (List BatchErrorEntry) := none

/-- Vendor-neutral batch envelope: status, mapped successes, and the
per-item errors passed through. -/
structure BatchResult (T : Type) where
  status : String
  results : List T
  errors : Option (List BatchErrorEntry)

/-- Result construction shared by batchRead, batchCreate and batchUpdate:
successes mapped through the per-family result mapper, errors verbatim. -/
def batchResultOfResponse {T : Type} (resultMapper : HubSpotObject → T)
    (resp : BatchResponse) : BatchResult T :=
  { status := resp.status
    results := resp.results.map resultMapper
    errors := resp.errors }

/-- Full batchCreateContacts pipeline through the shared request
primitive. -/
def batchCreateContactsRun (creds : TenantCredentials)
    (respond : Unit → HttpResponse BatchResponse) :
    Nat × Except CrmError (Option (BatchResult Contact)) :=
  let (n, r) := runRequest creds respond
  (n, r.map (fun ob => ob.map (batchResultOfResponse mapHubSpotContact)))

/-- Full batchReadContacts pipeline through the shared request
primitive. -/
def batchReadContactsRun (creds : TenantCredentials)
    (respond : Unit → HttpResponse BatchResponse) :
    Nat × Except CrmError (Option (BatchResult Contact)) :=
  let (n, r) := runRequest creds respond
  (n, r.map (fun ob => ob.map (batchResultOfResponse mapHubSpotContact)))

/-! ## Pipelines -/

/-- Raw shape of a HubSpot pipeline stage; the metadata strings carry
probability and the closed flag. -/
structure HubSpotPipelineStage where
  id : String
  label : String
  displayOrder : Int
  metadataProbability : Option String := none
  metadataIsClosed : Option String := none

/-- Raw shape of a HubSpot pipeline. -/
structure HubSpotPipeline where
  id : String
  label : String
  displayOrder : Int
  stages : List HubSpotPipelineStage

/-- Vendor-neutral pipeline stage. -/
structure PipelineStage where
  id : String
  name : String
  order : Int
  probability : Option ℚ := none
  isClosed : Bool

/-- Vendor-neutral pipeline. -/
structure Pipeline where
  id : String
  name : String
  stages : List PipelineStage

/-- Stage mapper: display order becomes order, the probability string is
parsed when truthy, and isClosed is a strict comparison against the
literal true string. -/
def mapPipelineStage (s : HubSpotPipelineStage) : PipelineStage :=
  { id := s.id
    name := s.label
    order := s.displayOrder
    probability := match s.metadataProbability with
      | some p => if p.isEmpty then none else jsParseFloat p
      | none => none
    isClosed := s.metadataIsClosed == some "true" }

/-- The stage comparator sort((a, b) => a.displayOrder - b.displayOrder):
ascending by display order. -/
def sortStages (stages : List HubSpotPipelineStage) : List HubSpotPipelineStage :=
  stages.mergeSort (fun a b => a.displayOrder ≤ b.displayOrder)

/-- Pipeline mapper shared by listPipelines, listTicketPipelines,
getPipeline, createPipeline and updatePipeline: stages are sorted
ascending by display order and then mapped. -/
def mapHubSpotPipeline (p : HubSpotPipeline) : Pipeline :=
  { id := p.id
    name := p.label
    stages := (sortStages p.stages).map mapPipelineStage }

/-! ## Activities: logCall and the call mapper -/

/-- Vendor-neutral activity (call branch of the unified activity shape).
durationMinutes is doubly optional: the outer none models undefined (no
duration property), the inner none models a NaN produced by rounding a
non-numeric duration string. -/
structure Activity where
  id : String
  type : String
  subject : String
  body : Option String := none
  durationMinutes : Option (Option Int) := none
  activityDate : Option String := none
  createdAt : String
  updatedAt : String

/-- Properties object of the outgoing POST body of logCall: title and
timestamp always, the notes when truthy, and hs_call_duration as the
stringified minutes-to-milliseconds conversion when the duration is
truthy (nonzero). -/
def logCallProperties (subject : String) (now : String)
    (notes : Option String) (durationMinutes : Option Int) : JsObj :=
  let o := objSet (objSet [] "hs_call_title" subject) "hs_timestamp" now
  let o := match notes with
    | some s => if s.isEmpty then o else objSet o "hs_call_body" s
    | none => o
  match durationMinutes with
  | some d => if d == 0 then o else objSet o "hs_call_duration" (jsNumToString (d * 60 * 1000))
  | none => o

/-- Call branch of mapHubSpotActivity: the duration string, when truthy,
is parsed with parseInt and converted from milliseconds to minutes with
Math.round. -/
def mapHubSpotCallActivity (obj : HubSpotObject) : Activity :=
  let props := obj.properties
  { id := obj.id
    type := "call"
    subject := (propOr props "hs_call_title").getD ""
    body := propOr props "hs_call_body"
    durationMinutes := match propOr props "hs_call_duration" with
      | some s => some ((jsParseInt s).map (fun n : Int => mathRound ((n : ℚ) / 1000 / 60)))
      | none => none
    activityDate := propOr props "hs_timestamp"
    createdAt := obj.createdAt
    updatedAt := obj.updatedAt }

/-! ## Sample inputs used to instantiate the spec scenarios -/

/-- A batch response with two successes and one per-item error, matching
the partial-failure scenario of the spec. -/
def sampleBatchResponse : BatchResponse where
  status := "COMPLETE"
  results := [{ id := "1", properties := [], createdAt := "a", updatedAt := "b" },
              { id := "2", properties := [], createdAt := "c", updatedAt := "d" }]
  errors := some [{ status := "error", message := "bad input" }]

/-- A list response whose next-page pointer is present but empty. -/
def emptyCursorListResponse : HubSpotListResponse where
  results := []
  paging := some { next := some { after := "" } }

/-- A list response with a concrete non-empty next-page pointer. -/
def sampleCursorListResponse : HubSpotListResponse where
  results := []
  paging := some { next := some { after := "cursor123" } }

/-- A create input whose customFields collide with the mapped email field
and carry one boolean and one null entry. -/
def sampleCreateInput : ContactCreateInput where
  email := "kept@example.com"
  customFields := [("email", .str "overwritten"), ("vip", .bool true), ("skip", .null)]

/-- A pipeline delivered by the backend with stages out of display
order. -/
def samplePipeline : HubSpotPipeline where
  id := "p1"
  label := "Sales"
  displayOrder := 0
  stages := [{ id := "s3", label := "Closed", displayOrder := 3 },
             { id := "s1", label := "New", displayOrder := 1 },
             { id := "s2", label := "Qualified", displayOrder := 2 }]

/-! ## Helper lemmas: JavaScript object semantics -/

theorem find?_map_replace (t : JsObj) (k v k' : String) (hne : k' ≠ k) :
    (t.map (fun p => if p.1 == k then (k, v) else p)).find? (fun p => p.1 == k') =
      t.find? (fun p => p.1 == k') := by
  induction t with
  | nil => rfl
  | cons p rest ih =>
    rw [List.map_cons]
    by_cases hp : p.1 = k
    · have h3 : (p.1 == k) = true := by simp [hp]
      rw [if_pos h3]
      have h1 : (((k, v) : String × String).1 == k') = false := by simp [Ne.symm hne]
      have h2 : (p.1 == k') = false := by simp [hp, Ne.symm hne]
      rw [List.find?_cons, List.find?_cons]
      simp only [h1, h2]
      exact ih
    · have h3 : ¬ (p.1 == k) = true := by simp [hp]
      rw [if_neg h3]
      rw [List.find?_cons, List.find?_cons]
      cases hk' : (p.1 == k') with
      | true => rfl
      | false => simpa using ih

theorem objGet_map_replace_self (t : JsObj) (k v : String)
    (hmem : t.any (fun p => p.1 == k) = true) :
    objGet (t.map (fun p => if p.1 == k then (k, v) else p)) k = some v := by
  induction t with
  | nil => simp at hmem
  | cons p rest ih =>
    rw [List.map_cons]
    by_cases hp : p.1 = k
    · have h3 : (p.1 == k) = true := by simp [hp]
      rw [if_pos h3]
      unfold objGet
      rw [List.find?_cons]
      simp
    · have h3 : ¬ (p.1 == k) = true := by simp [hp]
      rw [if_neg h3]
      simp only [List.any_cons, Bool.or_eq_true] at hmem
      have hrest : rest.any (fun p => p.1 == k) = true := by
        rcases hmem with h | h
        · exact absurd h h3
        · exact h
      unfold objGet
      rw [List.find?_cons]
      have h4 : (p.1 == k) = false := by simp [hp]
      simp only [h4]
      exact ih hrest

theorem objGet_objSet (o : JsObj) (k v k' : String) :
    objGet (objSet o k v) k' = if k' = k then some v else objGet o k' := by
  unfold objSet
  by_cases hmem : o.any (fun p => p.1 == k) = true
  · rw [if_pos hmem]
    by_cases hk : k' = k
    · subst hk
      rw [if_pos rfl]
      exact objGet_map_replace_self o k' v hmem
    · rw [if_neg hk]
      unfold objGet
      rw [find?_map_replace o k v k' hk]
  · rw [if_neg hmem]
    unfold objGet
    rw [List.find?_append]
    by_cases hk : k' = k
    · subst hk
      have hnone : o.find? (fun p => p.1 == k') = none := by
        rw [List.find?_eq_none]
        intro p hp hcontra
        exact hmem (List.any_eq_true.mpr ⟨p, hp, hcontra⟩)
      rw [hnone, if_pos rfl]
      rw [List.find?_cons]
      simp
    · rw [if_neg hk]
      cases hfind : o.find? (fun p => p.1 == k') with
      | some p => rfl
      | none =>
        rw [List.find?_cons]
        have h1 : (((k, v) : String × String).1 == k') = false := by simp [Ne.symm hk]
        simp only [h1]
        rfl

theorem objGet_applyCustomFields (cfs : List (String × JsVal)) (o : JsObj) (k : String) :
    objGet (applyCustomFields o cfs) k =
      match lastValidCustom cfs k with
      | some v => some v.toJsString
      | none => objGet o k := by
  induction cfs generalizing o with
  | nil => rfl
  | cons p rest ih =>
    show objGet (applyCustomFields
      (if p.2.isValidCustom then objSet o p.1 p.2.toJsString else o) rest) k = _
    rw [ih]
    cases hrest : lastValidCustom rest k with
    | some v => simp [lastValidCustom, hrest]
    | none =>
      simp only [lastValidCustom, hrest]
      by_cases hvalid : p.2.isValidCustom = true
      · by_cases hpk : p.1 = k
        · have : (p.1 == k) = true := by simp [hpk]
          simp [hvalid, this, objGet_objSet, hpk]
        · have hk : ¬ k = p.1 := fun h => hpk h.symm
          have hne : (p.1 == k) = false := by simp [hpk]
          simp [hvalid, hne, objGet_objSet, hk]
      · simp [hvalid]

theorem objGet_setIfDefined (o : JsObj) (k : String) (v : Option String) (k' : String) :
    objGet (setIfDefined o k v) k' =
      if k' = k then (match v with | some s => some s | none => objGet o k') else objGet o k' := by
  cases v with
  | some s => simp [setIfDefined, objGet_objSet]
  | none => simp [setIfDefined]

theorem objGet_setIfTruthy (o : JsObj) (k : String) (v : Option String) (k' : String) :
    objGet (setIfTruthy o k v) k' =
      if k' = k then (if truthyStr v then v else objGet o k') else objGet o k' := by
  cases v with
  | some s =>
    by_cases hs : s.isEmpty
    · simp [setIfTruthy, truthyStr, hs]
    · simp [setIfTruthy, truthyStr, hs, objGet_objSet]
  | none => simp [setIfTruthy, truthyStr]

theorem objGet_nil (k : String) : objGet [] k = none := rfl

theorem objGet_updateContactMapped (i : ContactUpdateInput) (k : String) :
    objGet (updateContactMapped i) k = contactUpdateField i k := by
  unfold updateContactMapped contactUpdateField
  rw [objGet_setIfDefined, objGet_setIfDefined, objGet_setIfDefined,
    objGet_setIfDefined, objGet_setIfDefined]
  by_cases h1 : k = "jobtitle" <;> by_cases h2 : k = "phone" <;>
    by_cases h3 : k = "email" <;> by_cases h4 : k = "lastname" <;>
    by_cases h5 : k = "firstname" <;>
    simp_all [objGet_nil] <;>
    (try cases i.title) <;> (try cases i.phone) <;> (try cases i.email) <;>
    (try cases i.lastName) <;> (try cases i.firstName) <;> simp

theorem objGet_createContactMapped (i : ContactCreateInput) (k : String) :
    objGet (createContactMapped i) k = contactCreateField i k := by
  unfold createContactMapped contactCreateField
  rw [objGet_setIfTruthy, objGet_setIfTruthy, objGet_setIfTruthy,
    objGet_setIfTruthy, objGet_setIfTruthy]
  by_cases h1 : k = "jobtitle" <;> by_cases h2 : k = "phone" <;>
    by_cases h3 : k = "email" <;> by_cases h4 : k = "lastname" <;>
    by_cases h5 : k = "firstname" <;>
    simp_all [objGet_nil, truthyStr] <;>
    (cases hie : i.email.isEmpty <;> simp [hie])

/-! ## Helper lemmas: decimal printing and parsing -/

theorem natDecimal_lt (n : Nat) (h : n < 10) : natDecimal n = [Nat.digitChar n] := by
  rw [natDecimal]
  simp [h]

theorem natDecimal_ge (n : Nat) (h : ¬ n < 10) :
    natDecimal n = natDecimal (n / 10) ++ [Nat.digitChar (n % 10)] := by
  rw [natDecimal]
  simp [h]

theorem digitChar_isDigit {d : Nat} (h : d < 10) : (Nat.digitChar d).isDigit = true := by
  interval_cases d <;> decide

theorem digitVal_digitChar {d : Nat} (h : d < 10) : digitVal (Nat.digitChar d) = d := by
  interval_cases d <;> decide

theorem natDecimal_ne_nil (n : Nat) : natDecimal n ≠ [] := by
  by_cases h : n < 10
  · rw [natDecimal_lt n h]
    simp
  · rw [natDecimal_ge n h]
    simp

theorem natDecimal_all_digits (n : Nat) : ∀ c ∈ natDecimal n, c.isDigit = true := by
  induction n using Nat.strong_induction_on with
  | _ n ih =>
    by_cases h : n < 10
    · rw [natDecimal_lt n h]
      intro c hc
      rw [List.mem_singleton] at hc
      exact hc ▸ digitChar_isDigit h
    · rw [natDecimal_ge n h]
      intro c hc
      rcases List.mem_append.mp hc with hm | hm
      · exact ih (n / 10) (Nat.div_lt_self (by omega) (by omega)) c hm
      · rw [List.mem_singleton] at hm
        exact hm ▸ digitChar_isDigit (Nat.mod_lt n (by omega))

theorem decimalValue_append (xs : List Char) (c : Char) :
    decimalValue (xs ++ [c]) = 10 * decimalValue xs + digitVal c := by
  simp [decimalValue, List.foldl_append]

theorem decimalValue_natDecimal (n : Nat) : decimalValue (natDecimal n) = n := by
  induction n using Nat.strong_induction_on with
  | _ n ih =>
    by_cases h : n < 10
    · rw [natDecimal_lt n h]
      simp [decimalValue, digitVal_digitChar h]
    · rw [natDecimal_ge n h, decimalValue_append,
        ih (n / 10) (Nat.div_lt_self (by omega) (by omega)),
        digitVal_digitChar (Nat.mod_lt n (by omega))]
      omega

theorem takeWhile_eq_self_of_all {α : Type} (p : α → Bool) (l : List α)
    (h : ∀ c ∈ l, p c = true) : l.takeWhile p = l := by
  induction l with
  | nil => rfl
  | cons a t ih =>
    rw [List.takeWhile_cons, if_pos (h a (List.mem_cons_self a t))]
    rw [ih (fun c hc => h c (List.mem_cons_of_mem a hc))]

theorem isDigit_head_facts (c : Char) (h : c.isDigit = true) :
    isJsSpace c = false ∧ (c == '-') = false ∧ (c == '+') = false := by
  simp only [Char.isDigit, Bool.and_eq_true, decide_eq_true_eq] at h
  obtain ⟨h1, h2⟩ := h
  refine ⟨?_, ?_, ?_⟩
  · simp only [isJsSpace, Bool.or_eq_false_iff]
    refine ⟨⟨⟨?_, ?_⟩, ?_⟩, ?_⟩ <;>
      (rw [beq_eq_false_iff_ne]; rintro rfl; revert h1; decide)
  · rw [beq_eq_false_iff_ne]
    rintro rfl
    revert h1
    decide
  · rw [beq_eq_false_iff_ne]
    rintro rfl
    revert h1
    decide

theorem jsParseIntCore_digits (cs : List Char) (hne : cs ≠ [])
    (hd : ∀ c ∈ cs, c.isDigit = true) :
    jsParseIntCore 1 cs = some (decimalValue cs) := by
  unfold jsParseIntCore
  rw [takeWhile_eq_self_of_all _ _ hd]
  have : cs.isEmpty = false := by
    cases cs with
    | nil => exact absurd rfl hne
    | cons a t => rfl
  simp [this]

theorem jsParseInt_natDecimal (n : Nat) :
    jsParseInt (String.mk (natDecimal n)) = some (n : Int) := by
  unfold jsParseInt
  have hto : (String.mk (natDecimal n)).toList = natDecimal n := rfl
  rw [hto]
  have hd := natDecimal_all_digits n
  obtain ⟨c, cs, hcons⟩ := List.exists_cons_of_ne_nil (natDecimal_ne_nil n)
  have hcd : c.isDigit = true := hd c (hcons ▸ List.mem_cons_self c cs)
  obtain ⟨hsp, hminus, hplus⟩ := isDigit_head_facts c hcd
  rw [hcons, List.dropWhile_cons, if_neg (by simp [hsp])]
  simp only [hminus, hplus, Bool.false_eq_true, if_false]
  rw [jsParseIntCore_digits (c :: cs) (by simp) (hcons ▸ hd), ← hcons,
    decimalValue_natDecimal]
  rfl

theorem jsParseInt_jsNumToString (n : Int) (h : 0 ≤ n) :
    jsParseInt (jsNumToString n) = some n := by
  unfold jsNumToString
  rw [if_neg (by omega)]
  rw [jsParseInt_natDecimal]
  congr 1
  omega

theorem natDecimal_two_digits (a b : Nat) (ha : 0 < a) (ha9 : a < 10) (hb : b < 10) :
    natDecimal (10 * a + b) = [Nat.digitChar a, Nat.digitChar b] := by
  rw [natDecimal_ge _ (by omega)]
  have h1 : (10 * a + b) / 10 = a := by omega
  have h2 : (10 * a + b) % 10 = b := by omega
  rw [h1, h2, natDecimal_lt a ha9]
  rfl

theorem jsNumToString_nonneg (n : Int) (h : 0 ≤ n) :
    jsNumToString n = String.mk (natDecimal n.toNat) := by
  unfold jsNumToString
  rw [if_neg (by omega)]

theorem jsNumToString_twenty : jsNumToString 20 = "20" := by
  rw [jsNumToString_nonneg 20 (by omega)]
  have : (20 : Int).toNat = 10 * 2 + 0 := rfl
  rw [this, natDecimal_two_digits 2 0 (by omega) (by omega) (by omega)]
  decide

/-! ## Claim theorems -/

/-- C1 counterexample: a 500 response whose JSON body carries a message
field holding the empty string does not use that field value — JavaScript
truthiness rejects the empty string and the fallback string is thrown
instead, contradicting the claim that the message is taken from the field
whenever the body has it. -/
theorem request_error_message_truthiness_cex :
    lookupField [("message", Json.str "")] "message" = some (Json.str "") ∧
    classifyResponse (T := Json)
        { status := 500, errorBody := some (.obj [("message", .str "")]) } =
      .error (.apiError (.str "API error: 500") 500) ∧
    Json.str "API error: 500" ≠ Json.str "" := by
  refine ⟨rfl, ?_, by simp⟩
  rfl

/-- C1 (amended): classification of every response by the shared request
primitive: 429 throws RateLimitError; 401/403 throw AuthenticationError;
any other non-2xx throws CrmApiError carrying the status and a message
chosen by JavaScript truthiness — the message field of the JSON body when
truthy, else the error field when truthy, else the fallback string, the
fallback also being used when the body is not JSON, is not an object, or
holds only falsy field values; 204 succeeds with an undefined result; any
other 2xx returns the JSON-parsed body. -/
theorem request_response_classification {T : Type} (r : HttpResponse T) :
    (r.status = 429 →
      classifyResponse r = .error (.rateLimit "Rate limit exceeded"
        (rateLimitRetryAfterSeconds (retryAfterArg r.retryAfterHeader)))) ∧
    (r.status = 401 ∨ r.status = 403 →
      classifyResponse r =
        .error (.authentication "Authentication failed. Check your API credentials.")) ∧
    (r.status ≠ 429 → r.status ≠ 401 → r.status ≠ 403 → statusOk r.status = false →
      classifyResponse r =
        .error (.apiError (extractErrorMessage r.status r.errorBody) r.status)) ∧
    (∀ fields m, r.errorBody = some (.obj fields) →
      lookupField fields "message" = some m → m.truthy = true →
      extractErrorMessage r.status r.errorBody = m) ∧
    (∀ fields e, r.errorBody = some (.obj fields) →
      (∀ m, lookupField fields "message" = some m → m.truthy = false) →
      lookupField fields "error" = some e → e.truthy = true →
      extractErrorMessage r.status r.errorBody = e) ∧
    ((∀ fields, r.errorBody = some (.obj fields) →
      (∀ m, lookupField fields "message" = some m → m.truthy = false) ∧
      (∀ e, lookupField fields "error" = some e → e.truthy = false)) →
      extractErrorMessage r.status r.errorBody =
        .str ("API error: " ++ toString r.status)) ∧
    (r.status = 204 → classifyResponse r = .ok none) ∧
    (statusOk r.status = true → r.status ≠ 204 → ∀ t, r.jsonBody = some t →
      classifyResponse r = .ok (some t)) := by
  refine ⟨?_, ?_, ?_, ?_, ?_, ?_, ?_, ?_⟩
  · intro h
    simp [classifyResponse, h]
  · intro h
    rcases h with h | h <;> simp [classifyResponse, h]
  · intro h1 h2 h3 h4
    have b1 : (r.status == 429) = false := by simp [h1]
    have b2 : (r.status == 401) = false := by simp [h2]
    have b3 : (r.status == 403) = false := by simp [h3]
    simp [classifyResponse, b1, b2, b3, h4]
  · intro fields m hb hm ht
    rw [hb]
    simp [extractErrorMessage, jsOr, hm, ht]
  · intro fields e hb hmf he ht
    rw [hb]
    simp only [extractErrorMessage, jsOr]
    cases hm : lookupField fields "message" with
    | some m =>
      have := hmf m hm
      simp [this, he, ht]
    | none => simp [he, ht]
  · intro hfalsy
    cases hb : r.errorBody with
    | none => rfl
    | some j =>
      cases j with
      | obj fields =>
        obtain ⟨hmf, hef⟩ := hfalsy fields hb
        simp only [extractErrorMessage, jsOr]
        cases hm : lookupField fields "message" with
        | some m =>
          have := hmf m hm
          simp only [this, Bool.false_eq_true, if_false]
          cases he : lookupField fields "error" with
          | some e =>
            have := hef e he
            simp [this]
          | none => rfl
        | none =>
          cases he : lookupField fields "error" with
          | some e =>
            have := hef e he
            simp [this]
          | none => rfl
      | null => rfl
      | bool b => rfl
      | num n => rfl
      | str s => rfl
      | arr xs => rfl
  · intro h
    have b1 : (r.status == 429) = false := by simp [h]
    have b2 : (r.status == 401) = false := by simp [h]
    have b3 : (r.status == 403) = false := by simp [h]
    have b4 : statusOk r.status = true := by simp [statusOk, h]
    have b5 : (r.status == 204) = true := by simp [h]
    simp [classifyResponse, b1, b2, b3, b4, b5]
  · intro hok h204 t hbody
    have hs : 200 ≤ r.status ∧ r.status ≤ 299 := by
      simpa [statusOk] using hok
    have b1 : (r.status == 429) = false := by simp; omega
    have b2 : (r.status == 401) = false := by simp; omega
    have b3 : (r.status == 403) = false := by simp; omega
    have b5 : (r.status == 204) = false := by simp [h204]
    simp [classifyResponse, b1, b2, b3, b5, hok, hbody]

/-- C1 amended-theorem witness at concrete responses: a 404 with a truthy
message field, and a 200 with a JSON body. -/
theorem request_response_classification_witness :
    classifyResponse (T := Json)
        { status := 404, errorBody := some (.obj [("message", .str "not found")]) } =
      .error (.apiError (.str "not found") 404) ∧
    classifyResponse (T := Json) { status := 200, jsonBody := some (.num 7) } =
      .ok (some (.num 7)) ∧
    classifyResponse (T := Json) { status := 204 } = .ok none := by
  refine ⟨?_, ?_, ?_⟩
  · have h := request_response_classification
      (r := ({ status := 404, errorBody := some (.obj [("message", .str "not found")]) } :
        HttpResponse Json))
    rw [h.2.2.1 (by decide) (by decide) (by decide) (by decide)]
    rw [h.2.2.2.1 [("message", Json.str "not found")] (.str "not found") rfl rfl (by decide)]
  · exact (request_response_classification
      (r := ({ status := 200, jsonBody := some (.num 7) } : HttpResponse Json))).2.2.2.2.2.2.2
      (by decide) (by decide) (.num 7) rfl
  · exact (request_response_classification
      (r := ({ status := 204 } : HttpResponse Json))).2.2.2.2.2.2.1 rfl

/-- C2: an adapter holding neither an API key nor an access token fails
every operation with AuthenticationError from the auth-header builder,
before the transport is invoked (invocation count 0). -/
theorem missing_credentials_fail_before_transport
    (creds : TenantCredentials)
    (hkey : creds.apiKey = none) (htok : creds.accessToken = none) :
    (∀ (T : Type) (respond : Unit → HttpResponse T),
      runRequest creds respond = (0, .error (.authentication
        "No credentials provided. Include X-CRM-API-Key or X-CRM-Access-Token header."))) ∧
    (∀ respond, listContactsRun creds respond = (0, .error (.authentication
      "No credentials provided. Include X-CRM-API-Key or X-CRM-Access-Token header."))) ∧
    (∀ respond, batchCreateContactsRun creds respond = (0, .error (.authentication
      "No credentials provided. Include X-CRM-API-Key or X-CRM-Access-Token header."))) := by
  have hauth : getAuthHeaders creds = .error (.authentication
      "No credentials provided. Include X-CRM-API-Key or X-CRM-Access-Token header.") := by
    simp [getAuthHeaders, hkey, htok, truthyStr]
  refine ⟨?_, ?_, ?_⟩
  · intro T respond
    simp [runRequest, hauth]
  · intro respond
    simp [listContactsRun, runRequest, hauth, Except.map]
  · intro respond
    simp [batchCreateContactsRun, runRequest, hauth, Except.map]

/-- C2 witness: empty credentials at a concrete responder; the transport
count is 0. -/
theorem missing_credentials_fail_before_transport_witness :
    runRequest (T := Json) {} (fun _ => { status := 200, jsonBody := some (.num 1) }) =
      (0, .error (.authentication
        "No credentials provided. Include X-CRM-API-Key or X-CRM-Access-Token header.")) :=
  (missing_credentials_fail_before_transport {} rfl rfl).1 Json
    (fun _ => { status := 200, jsonBody := some (.num 1) })

/-- C3: a 429 response throws RateLimitError whose retry-after delay is
parsed from the Retry-After header (header 30 yields delay 30, and in
general a truthy header parsing to n yields n), and defaults to 60 when
the header is absent or malformed — the malformed case going through the
spec-modelled RateLimitError constructor, which replaces NaN by 60. -/
theorem rate_limit_retry_after {T : Type} (r : HttpResponse T) (h429 : r.status = 429) :
    (r.retryAfterHeader = some "30" →
      classifyResponse r = .error (.rateLimit "Rate limit exceeded" 30)) ∧
    (r.retryAfterHeader = none →
      classifyResponse r = .error (.rateLimit "Rate limit exceeded" 60)) ∧
    (∀ s, r.retryAfterHeader = some s → jsParseInt s = none →
      classifyResponse r = .error (.rateLimit "Rate limit exceeded" 60)) ∧
    (∀ s n, r.retryAfterHeader = some s → s ≠ "" → jsParseInt s = some n →
      classifyResponse r = .error (.rateLimit "Rate limit exceeded" n)) := by
  have hcls : classifyResponse r = .error (.rateLimit "Rate limit exceeded"
      (rateLimitRetryAfterSeconds (retryAfterArg r.retryAfterHeader))) := by
    simp [classifyResponse, h429]
  refine ⟨?_, ?_, ?_, ?_⟩
  · intro hh
    rw [hcls, hh]
    rfl
  · intro hh
    rw [hcls, hh]
    rfl
  · intro s hh hparse
    rw [hcls, hh]
    by_cases hs : s.isEmpty
    · simp [retryAfterArg, hs, rateLimitRetryAfterSeconds]
    · simp [retryAfterArg, hs, hparse, rateLimitRetryAfterSeconds]
  · intro s n hh hne hparse
    rw [hcls, hh]
    have hs : s.isEmpty = false := by
      rcases String.isEmpty_iff s with ⟨h1, _⟩
      cases hcase : s.isEmpty
      · rfl
      · exact absurd (h1 hcase) hne
    simp [retryAfterArg, hs, hparse, rateLimitRetryAfterSeconds]

/-- C3 witness at concrete 429 responses: header 30 gives 30, an absent
header gives 60, and the malformed header abc gives 60. -/
theorem rate_limit_retry_after_witness :
    classifyResponse (T := Json) { status := 429, retryAfterHeader := some "30" } =
      .error (.rateLimit "Rate limit exceeded" 30) ∧
    classifyResponse (T := Json) { status := 429 } =
      .error (.rateLimit "Rate limit exceeded" 60) ∧
    classifyResponse (T := Json) { status := 429, retryAfterHeader := some "abc" } =
      .error (.rateLimit "Rate limit exceeded" 60) := by
  refine ⟨?_, ?_, ?_⟩
  · exact (rate_limit_retry_after
      (r := ({ status := 429, retryAfterHeader := some "30" } : HttpResponse Json))
      rfl).1 rfl
  · exact (rate_limit_retry_after
      (r := ({ status := 429 } : HttpResponse Json)) rfl).2.1 rfl
  · exact (rate_limit_retry_after
      (r := ({ status := 429, retryAfterHeader := some "abc" } : HttpResponse Json))
      rfl).2.2.1 "abc" rfl (by decide)

/-- C4: the properties object of the updateContact PATCH body holds
exactly the mapped entries for the input fields that are not undefined —
an omitted field is absent from the body, a field holding the empty string
is included with that value — with customFields entries taking precedence
on key collision. -/
theorem update_contact_patch_properties (i : ContactUpdateInput) (k : String) :
    objGet (updateContactProperties i) k =
      match lastValidCustom i.customFields k with
      | some v => some v.toJsString
      | none => contactUpdateField i k := by
  unfold updateContactProperties
  rw [objGet_applyCustomFields]
  cases lastValidCustom i.customFields k with
  | some v => rfl
  | none => simp [objGet_updateContactMapped]

/-- C5: every search call with a non-empty filter list places all filters
in a single filter group, mapping field to propertyName, passing the value
through, and mapping the operator by the fixed table with EQ as the
fallback for unrecognized operators; the contains example serializes to
CONTAINS_TOKEN. -/
theorem search_filter_serialization :
    (∀ (params : SearchParams) (fs : List SearchFilter),
      params.filters = some fs → fs ≠ [] →
      (searchContactsBody params).filterGroups = some [fs.map mapHubSpotFilter]) ∧
    mapFilterOperator "eq" = "EQ" ∧ mapFilterOperator "neq" = "NEQ" ∧
    mapFilterOperator "lt" = "LT" ∧ mapFilterOperator "lte" = "LTE" ∧
    mapFilterOperator "gt" = "GT" ∧ mapFilterOperator "gte" = "GTE" ∧
    mapFilterOperator "contains" = "CONTAINS_TOKEN" ∧
    mapFilterOperator "not_contains" = "NOT_CONTAINS_TOKEN" ∧
    mapFilterOperator "in" = "IN" ∧ mapFilterOperator "not_in" = "NOT_IN" ∧
    mapFilterOperator "is_null" = "NOT_HAS_PROPERTY" ∧
    mapFilterOperator "is_not_null" = "HAS_PROPERTY" ∧
    (∀ op, op ∉ filterOperatorMapping.map Prod.fst → mapFilterOperator op = "EQ") ∧
    mapHubSpotFilter { field := "email", operator := "contains", value := .str "acme" } =
      { propertyName := "email", operator := "CONTAINS_TOKEN", value := .str "acme" } := by
  refine ⟨?_, rfl, rfl, rfl, rfl, rfl, rfl, rfl, rfl, rfl, rfl, rfl, rfl, ?_, rfl⟩
  · intro params fs hfs hne
    have hlen : fs.length > 0 := List.length_pos.mpr hne
    simp [searchContactsBody, hfs, hlen]
  · intro op hop
    simp only [filterOperatorMapping, List.map_cons, List.map_nil, List.mem_cons,
      List.mem_singleton, not_or] at hop
    obtain ⟨n1, n2, n3, n4, n5, n6, n7, n8, n9, n10, n11, n12, -⟩ := hop
    have f : ∀ a : String, op ≠ a → (a == op) = false := by
      intro a ha
      exact beq_eq_false_iff_ne.mpr (Ne.symm ha)
    simp [mapFilterOperator, objGet, filterOperatorMapping, List.find?_cons,
      f _ n1, f _ n2, f _ n3, f _ n4, f _ n5, f _ n6, f _ n7, f _ n8,
      f _ n9, f _ n10, f _ n11, f _ n12]

/-- C5 witness: the scenario filter list serializes to the single
CONTAINS_TOKEN filter group, and the unrecognized starts_with operator
degrades to EQ. -/
theorem search_filter_serialization_witness :
    (searchContactsBody
        { filters := some [{ field := "email", operator := "contains", value := .str "acme" }] }).filterGroups =
      some [[{ propertyName := "email", operator := "CONTAINS_TOKEN", value := .str "acme" }]] ∧
    mapFilterOperator "starts_with" = "EQ" := by
  constructor
  · rw [search_filter_serialization.1
      { filters := some [{ field := "email", operator := "contains", value := .str "acme" }] }
      [{ field := "email", operator := "contains", value := .str "acme" }] rfl (by simp)]
    rfl
  · exact search_filter_serialization.2.2.2.2.2.2.2.2.2.2.2.2.2.1 "starts_with" (by decide)

/-- C6: a batch response carrying both successes and per-item errors is
returned as a single successful BatchResult — results holds the mapped
successes, errors holds the error entries verbatim, and nothing is
thrown; the same result construction is shared by batch-read and
batch-update. -/
theorem batch_partial_failure_single_success
    (creds : TenantCredentials) (hs : ∃ h, getAuthHeaders creds = .ok h)
    (respond : Unit → HttpResponse BatchResponse)
    (bresp : BatchResponse)
    (hok : statusOk (respond ()).status = true) (h204 : (respond ()).status ≠ 204)
    (hbody : (respond ()).jsonBody = some bresp)
    (es : List BatchErrorEntry) (herr : bresp.errors = some es) :
    batchCreateContactsRun creds respond =
      (1, .ok (some (batchResultOfResponse mapHubSpotContact bresp))) ∧
    batchReadContactsRun creds respond =
      (1, .ok (some (batchResultOfResponse mapHubSpotContact bresp))) ∧
    (batchResultOfResponse mapHubSpotContact bresp).results.length =
      bresp.results.length ∧
    (batchResultOfResponse mapHubSpotContact bresp).errors = some es := by
  obtain ⟨h, hh⟩ := hs
  have hcls : classifyResponse (respond ()) = .ok (some bresp) :=
    (request_response_classification (respond ())).2.2.2.2.2.2.2 hok h204 bresp hbody
  have hrun : runRequest creds respond = (1, .ok (some bresp)) := by
    simp [runRequest, hh, hcls]
  refine ⟨?_, ?_, ?_, ?_⟩
  · simp [batchCreateContactsRun, hrun, Except.map]
  · simp [batchReadContactsRun, hrun, Except.map]
  · simp [batchResultOfResponse]
  · simp [batchResultOfResponse, herr]

/-- C6 witness: an API-keyed adapter receiving a 207 multi-status batch
response with 2 successes and 1 error yields one successful call with
results.length 2 and errors.length 1. -/
theorem batch_partial_failure_single_success_witness :
    batchCreateContactsRun { apiKey := some "key" }
        (fun _ => { status := 207, jsonBody := some sampleBatchResponse }) =
      (1, .ok (some (batchResultOfResponse mapHubSpotContact sampleBatchResponse))) ∧
    (batchResultOfResponse mapHubSpotContact sampleBatchResponse).results.length = 2 ∧
    (batchResultOfResponse mapHubSpotContact sampleBatchResponse).errors =
      some [{ status := "error", message := "bad input" }] := by
  have h := batch_partial_failure_single_success { apiKey := some "key" }
    ⟨_, rfl⟩
    (fun _ => { status := 207, jsonBody := some sampleBatchResponse })
    sampleBatchResponse
    (by decide) (by decide) rfl
    [{ status := "error", message := "bad input" }] rfl
  exact ⟨h.1, by rw [h.2.2.1]; rfl, h.2.2.2⟩

/-- C7 counterexample: a list response whose next-page pointer is present
but holds the empty string yields hasMore false (with nextCursor the empty
string), contradicting the claim that a present pointer always yields
hasMore true. -/
theorem list_pagination_empty_cursor_cex :
    pagingAfter emptyCursorListResponse = some "" ∧
    (listContactsResult emptyCursorListResponse).hasMore = false ∧
    (listContactsResult emptyCursorListResponse).nextCursor = some "" :=
  ⟨rfl, rfl, rfl⟩

/-- C7 (amended): a list call without a limit sends limit 20; the mapped
PaginatedResponse always has count equal to the number of returned items
and nextCursor equal to the raw next-page pointer verbatim, and hasMore is
true exactly when that pointer is present and non-empty (an absent pointer
gives hasMore false with nextCursor undefined, an empty-string pointer
gives hasMore false with nextCursor the empty string). -/
theorem list_contacts_pagination (params : Option PaginationParams)
    (resp : HubSpotListResponse) :
    (params.bind (fun p => p.limit) = none →
      objGet (listContactsQuery params) "limit" = some "20") ∧
    (listContactsResult resp).count = resp.results.length ∧
    (listContactsResult resp).items = resp.results.map mapHubSpotContact ∧
    (listContactsResult resp).nextCursor = pagingAfter resp ∧
    ((listContactsResult resp).hasMore = true ↔
      ∃ s, pagingAfter resp = some s ∧ s ≠ "") := by
  refine ⟨?_, rfl, rfl, rfl, ?_⟩
  · intro hlim
    unfold listContactsQuery
    rw [hlim]
    have h20 : jsOrNum none 20 = 20 := rfl
    rw [h20, jsNumToString_twenty]
    cases hcur : params.bind (fun p => p.cursor) with
    | none => rfl
    | some c =>
      by_cases hc : c.isEmpty
      · simp [hc, objGet]
      · simp [hc, objGet]
  · show truthyStr (pagingAfter resp) = true ↔ _
    cases hp : pagingAfter resp with
    | none => simp [truthyStr]
    | some s =>
      simp only [truthyStr, Bool.not_eq_true']
      constructor
      · intro h
        refine ⟨s, rfl, ?_⟩
        intro hcontra
        rw [hcontra] at h
        exact absurd h (by decide)
      · rintro ⟨t, ht, hne⟩
        cases ht
        cases hie : s.isEmpty
        · rfl
        · exact absurd ((String.isEmpty_iff s).mp hie) hne

/-- C7 amended-theorem witness: no limit specified sends limit 20, and a
concrete non-empty pointer yields hasMore true with the pointer as the
cursor. -/
theorem list_contacts_pagination_witness :
    objGet (listContactsQuery none) "limit" = some "20" ∧
    (listContactsResult sampleCursorListResponse).hasMore = true ∧
    (listContactsResult sampleCursorListResponse).nextCursor = some "cursor123" := by
  have h := list_contacts_pagination none sampleCursorListResponse
  exact ⟨h.1 rfl, h.2.2.2.2.mpr ⟨"cursor123", rfl, by decide⟩, h.2.2.2.1⟩

/-- C8: customFields merging for create and update bodies: every entry
whose value is neither undefined nor null lands in the outgoing properties
with its key unchanged and its value stringified by String(value), and on
a key collision with an already-mapped standard field the customFields
value overwrites the mapped one — shown by the full characterization of
the createContact body and concrete collision instances. -/
theorem create_contact_custom_fields_merge :
    (∀ (i : ContactCreateInput) (k : String),
      objGet (createContactProperties i) k =
        match lastValidCustom i.customFields k with
        | some v => some v.toJsString
        | none => contactCreateField i k) ∧
    (∀ (i : ContactUpdateInput) (k : String) (v : JsVal),
      lastValidCustom i.customFields k = some v →
      objGet (updateContactProperties i) k = some v.toJsString) ∧
    objGet (createContactProperties sampleCreateInput) "email" = some "overwritten" ∧
    objGet (createContactProperties sampleCreateInput) "vip" = some "true" ∧
    objGet (createContactProperties sampleCreateInput) "skip" = none := by
  refine ⟨?_, ?_, rfl, rfl, rfl⟩
  · intro i k
    unfold createContactProperties
    rw [objGet_applyCustomFields]
    cases lastValidCustom i.customFields k with
    | some v => rfl
    | none => simp [objGet_createContactMapped]
  · intro i k v hv
    unfold updateContactProperties
    rw [objGet_applyCustomFields, hv]

/-- C9: the stage list of every mapped pipeline — the construction shared
by listPipelines, listTicketPipelines, getPipeline, createPipeline and
updatePipeline — is sorted ascending by display order: adjacent stages
satisfy order at i less-or-equal order at i+1. -/
theorem pipeline_stages_sorted (p : HubSpotPipeline) (i : Nat)
    (h : i + 1 < (mapHubSpotPipeline p).stages.length) :
    ((mapHubSpotPipeline p).stages.get ⟨i, by omega⟩).order ≤
      ((mapHubSpotPipeline p).stages.get ⟨i + 1, h⟩).order := by
  have hsorted : List.Pairwise
      (fun a b : HubSpotPipelineStage => a.displayOrder ≤ b.displayOrder)
      (sortStages p.stages) := by
    have := @List.sorted_mergeSort HubSpotPipelineStage
      (fun a b => decide (a.displayOrder ≤ b.displayOrder))
      (fun a b c hab hbc => by
        simp only [decide_eq_true_eq] at *
        omega)
      (fun a b => by
        simp only [Bool.or_eq_true, decide_eq_true_eq]
        omega)
      p.stages
    refine this.imp ?_
    intro a b hab
    simpa using hab
  have hmapped : List.Pairwise (fun a b : PipelineStage => a.order ≤ b.order)
      ((sortStages p.stages).map mapPipelineStage) := by
    rw [List.pairwise_map]
    exact hsorted.imp (fun hab => hab)
  have hstages : (mapHubSpotPipeline p).stages =
      (sortStages p.stages).map mapPipelineStage := rfl
  rw [List.pairwise_iff_get] at hmapped
  have := hmapped ⟨i, by rw [← hstages]; omega⟩ ⟨i + 1, by rw [← hstages]; exact h⟩
    (by simp)
  exact this

/-- C9 witness: a pipeline delivered with display orders 3, 1, 2 maps to a
stage list whose first two orders are ascending. -/
theorem pipeline_stages_sorted_witness :
    (0 + 1 < (mapHubSpotPipeline samplePipeline).stages.length) ∧
    ((mapHubSpotPipeline samplePipeline).stages.get ⟨0, by simp [mapHubSpotPipeline, sortStages, samplePipeline]⟩).order ≤
      ((mapHubSpotPipeline samplePipeline).stages.get ⟨1, by simp [mapHubSpotPipeline, sortStages, samplePipeline]⟩).order := by
  have hlen : (mapHubSpotPipeline samplePipeline).stages.length = 3 := by
    simp [mapHubSpotPipeline, sortStages, samplePipeline]
  exact ⟨by omega, pipeline_stages_sorted samplePipeline 0 (by omega)⟩

/-- C10: logCall with a positive duration of d minutes sends
hs_call_duration as the decimal string for d times 60000 milliseconds;
reading back a call object holding exactly that string yields
durationMinutes d; a zero or absent duration sends no hs_call_duration
property. -/
theorem log_call_duration_round_trip (d : Int) (hd : 0 < d)
    (subject now : String) (notes : Option String) (obj : HubSpotObject) :
    objGet (logCallProperties subject now notes (some d)) "hs_call_duration" =
      some (jsNumToString (d * 60 * 1000)) ∧
    (propOr obj.properties "hs_call_duration" = some (jsNumToString (d * 60 * 1000)) →
      (mapHubSpotCallActivity obj).durationMinutes = some (some d)) ∧
    objGet (logCallProperties subject now notes (some 0)) "hs_call_duration" = none ∧
    objGet (logCallProperties subject now notes none) "hs_call_duration" = none := by
  have hzero : (d == 0) = false := by
    simp only [beq_eq_false_iff_ne]
    omega
  refine ⟨?_, ?_, ?_, ?_⟩
  · unfold logCallProperties
    simp only [hzero, Bool.false_eq_true, if_false]
    cases notes with
    | none => simp [objGet_objSet, objGet_nil]
    | some s =>
      by_cases hs : s.isEmpty <;> simp [hs, objGet_objSet, objGet_nil]
  · intro hprop
    unfold mapHubSpotCallActivity
    simp only [hprop, jsParseInt_jsNumToString (d * 60 * 1000) (by omega : (0 : Int) ≤ d * 60 * 1000),
      Option.map_some']
    have hq : ((d * 60 * 1000 : Int) : ℚ) / 1000 / 60 = (d : ℚ) := by
      push_cast
      ring
    rw [hq]
    unfold mathRound
    rw [Int.floor_int_add]
    norm_num
  · unfold logCallProperties
    simp only [beq_self_eq_true, if_true]
    cases notes with
    | none => simp [objGet_objSet, objGet_nil]
    | some s =>
      by_cases hs : s.isEmpty <;> simp [hs, objGet_objSet, objGet_nil]
  · unfold logCallProperties
    cases notes with
    | none => simp [objGet_objSet, objGet_nil]
    | some s =>
      by_cases hs : s.isEmpty <;> simp [hs, objGet_objSet, objGet_nil]

/-- C10 witness: a 5-minute call sends the 300000-millisecond string and
reads back as 5 minutes. -/
theorem log_call_duration_round_trip_witness :
    objGet (logCallProperties "Intro call" "2024-01-01T00:00:00Z" none (some 5))
      "hs_call_duration" = some (jsNumToString (5 * 60 * 1000)) ∧
    (mapHubSpotCallActivity
      { id := "9", properties := [("hs_call_duration", some (jsNumToString (5 * 60 * 1000)))],
        createdAt := "a", updatedAt := "b" }).durationMinutes = some (some 5) := by
  have h := log_call_duration_round_trip 5 (by omega) "Intro call" "2024-01-01T00:00:00Z"
    none { id := "9",
           properties := [("hs_call_duration", some (jsNumToString (5 * 60 * 1000)))],
           createdAt := "a", updatedAt := "b" }
  refine ⟨h.1, h.2.1 ?_⟩
  unfold propOr
  simp only [List.find?_cons]
  have hne : (jsNumToString 300000).isEmpty = false := by
    rw [jsNumToString_nonneg _ (by omega)]
    have hnil := natDecimal_ne_nil ((300000 : Int)).toNat
    cases hcase : natDecimal ((300000 : Int)).toNat with
    | nil => exact absurd hcase hnil
    | cons c cs =>
      simp only [String.isEmpty, String.mk, hcase]
      cases hb : (String.endPos { data := c :: cs } == 0) with
      | false => rfl
      | true =>
        exfalso
        have hbe := eq_of_beq hb
        have hbyte := congrArg String.Pos.byteIdx hbe
        have hpos := Char.utf8Size_pos c
        simp [String.endPos, String.utf8ByteSize] at hbyte
        omega
  simp [hne]

end HubSpot
